import Mathlib

/-!
Shallow embedding of `src/multilanguages_streamlit.py`: the language
detector (`LanguageDetector.detect_language`), the agent dispatch
(`get_response_from_agent`), the per-interaction step of `main`, and the
session-scoped conversation history list.
-/

/-- Python's `str.strip()`: drop whitespace from both ends of the character list. -/
def trimChars (l : List Char) : List Char :=
  ((l.dropWhile Char.isWhitespace).reverse.dropWhile Char.isWhitespace).reverse

/-- `leadMatch w l` is true when `w` occurs at the start of `l` (character by character). -/
def leadMatch : List Char → List Char → Bool
  | [], _ => true
  | _ :: _, [] => false
  | a :: as, b :: bs => a == b && leadMatch as bs

/-- `subOccurs w l` is Python's `w in l`: the word `w` occurs as a contiguous substring of `l`. -/
def subOccurs (w : List Char) : List Char → Bool
  | [] => w.isEmpty
  | c :: cs => leadMatch w (c :: cs) || subOccurs w cs

/-- German indicator words of the keyword fallback (line 41 of the source). -/
def german_indicators : List String :=
  ["ich", "du", "der", "die", "das", "und", "ist", "mit", "für", "auf", "von", "zu", "im", "über"]

/-- English indicator words of the keyword fallback (line 42 of the source). -/
def english_indicators : List String :=
  ["the", "and", "is", "with", "for", "on", "from", "to", "in", "over", "this", "that"]

/-- One character of Python's `str.lower()` (the full Unicode lowercase mapping), given as
the list of characters it lowers to.  The mapping is written out for the Latin blocks —
ASCII `A`-`Z`, the Latin-1 Supplement uppercase letters `À`-`Þ` (excluding `×`; in
particular `Ü → ü`), and Latin Extended-A, including the one full special lowering
`İ → i` followed by a combining dot above — and leaves every other character unchanged.
Outside these blocks no Unicode character lowers to any character occurring in the
indicator words (the nearest candidates, the Kelvin sign `K → k` and the Angstrom sign
`Å → å`, produce letters absent from every indicator word), so the keyword counts below
coincide with the program's on every input. -/
def pyLowerChar (c : Char) : List Char :=
  if 65 ≤ c.toNat ∧ c.toNat ≤ 90 then [Char.ofNat (c.toNat + 32)]
  else if (192 ≤ c.toNat ∧ c.toNat ≤ 214) ∨ (216 ≤ c.toNat ∧ c.toNat ≤ 222) then
    [Char.ofNat (c.toNat + 32)]
  else if 256 ≤ c.toNat ∧ c.toNat ≤ 302 ∧ c.toNat % 2 = 0 then [Char.ofNat (c.toNat + 1)]
  else if c.toNat = 304 then [Char.ofNat 105, Char.ofNat 775]
  else if 306 ≤ c.toNat ∧ c.toNat ≤ 310 ∧ c.toNat % 2 = 0 then [Char.ofNat (c.toNat + 1)]
  else if 313 ≤ c.toNat ∧ c.toNat ≤ 327 ∧ c.toNat % 2 = 1 then [Char.ofNat (c.toNat + 1)]
  else if 330 ≤ c.toNat ∧ c.toNat ≤ 374 ∧ c.toNat % 2 = 0 then [Char.ofNat (c.toNat + 1)]
  else if c.toNat = 376 then [Char.ofNat 255]
  else if 377 ≤ c.toNat ∧ c.toNat ≤ 381 ∧ c.toNat % 2 = 1 then [Char.ofNat (c.toNat + 1)]
  else [c]

/-- `text.lower()` as a character list: each character replaced by its Python lowering. -/
def text_lower (text : String) : List Char :=
  text.toList.flatMap pyLowerChar

/-- `sum(1 for word in indicators if word in text_lower)`. -/
def countHits (indicators : List String) (lower : List Char) : Nat :=
  (indicators.filter (fun w => subOccurs w.toList lower)).length

/-- `german_count` of the fallback branch (line 44). -/
def german_count (text : String) : Nat :=
  countHits german_indicators (text_lower text)

/-- `english_count` of the fallback branch (line 45). -/
def english_count (text : String) : Nat :=
  countHits english_indicators (text_lower text)

/-- The keyword fallback (lines 40-52): `de` when the German count strictly exceeds the
English count and is positive, else `en` when the English count is positive, else `unknown`. -/
def fallbackDetect (text : String) : String :=
  if german_count text > english_count text ∧ german_count text > 0 then "de"
  else if english_count text > 0 then "en"
  else "unknown"

/-- `LanguageDetector.detect_language` (lines 24-52).  The primary statistical detector
(`langdetect.detect`) is an external collaborator, modelled as an oracle
`primary : String → Option String`; `some code` is a successful detection returning `code`
and `none` is a raised exception.  An empty text or one whose stripped length is below 2
short-circuits to `unknown`; a primary success returns the detected code; a primary
exception is caught and answered by the keyword fallback. -/
def detect_language (primary : String → Option String) (text : String) : String :=
  if text.toList.isEmpty ∨ (trimChars text.toList).length < 2 then "unknown"
  else
    match primary text with
    | some code => code
    | none => fallbackDetect text

/-- The two agent personas built by `create_agents` (lines 55-84).  The external model
behind them is opaque; what matters to routing is which of the two is invoked. -/
inductive AgentCall where
  | english
  | german
deriving DecidableEq, Repr

/-- Static configuration of a persona: name, role and instruction strings (lines 59-82). -/
structure AgentConfig where
  name : String
  role : String
  instructions : List String
deriving DecidableEq

/-- The English agent's static configuration (lines 59-69). -/
def english_agent_config : AgentConfig :=
  { name := "English Agent"
    role := "Expert English language assistant"
    instructions :=
      ["You must only respond in English.",
       "Provide helpful, accurate, and engaging responses.",
       "If asked to respond in another language, politely decline and respond in English."] }

/-- The German agent's static configuration (lines 72-82). -/
def german_agent_config : AgentConfig :=
  { name := "German Agent"
    role := "Experte für deutsche Sprache"
    instructions :=
      ["Du musst nur auf Deutsch antworten.",
       "Gib hilfreiche, genaue und ansprechende Antworten.",
       "Falls du gebeten wirst, in einer anderen Sprache zu antworten, lehne höflich ab und antworte auf Deutsch."] }

/-- The persona bound to each call target. -/
def persona_of : AgentCall → AgentConfig
  | AgentCall.english => english_agent_config
  | AgentCall.german => german_agent_config

/-- A message inside an agent response; `content` is `some` exactly when the Python object
has a `content` attribute (`hasattr(last_message, 'content')`). -/
structure Message where
  content : Option String
deriving DecidableEq

/-- The shape of a successful agent response: an optional direct `content` attribute, an
optional `messages` attribute holding a message list, and the object's `str()` form. -/
structure RunResponse where
  content : Option String
  messages : Option (List Message)
  str_repr : String
deriving DecidableEq

/-- Outcome of `agent.run(user_input)`: a response object, or a raised exception whose
`str(e)` is the carried string. -/
inductive RunResult where
  | ok (r : RunResponse)
  | err (e : String)
deriving DecidableEq

/-- Content extraction of `get_response_from_agent` (lines 117-126): the response's own
`content` attribute when present; otherwise, when a non-empty `messages` list is present
and its last message has a `content` attribute, that content; otherwise `str(response)`. -/
def extract_content (r : RunResponse) : String :=
  match r.content with
  | some c => c
  | none =>
    match r.messages with
    | some msgs =>
      match msgs.getLast? with
      | some last =>
        match last.content with
        | some c => c
        | none => r.str_repr
      | none => r.str_repr
    | none => r.str_repr

/-- `get_response_from_agent` (lines 106-130).  The two agents are oracles
`String → RunResult`.  The result pairs the returned reply string with the list of agent
invocations made: `detected_lang == 'de'` runs the German agent, every other label defaults
to the English agent; a raised exception is caught and rendered as an error string. -/
def get_response_from_agent (english_agent german_agent : String → RunResult)
    (user_input detected_lang : String) : String × List AgentCall :=
  (match (if detected_lang = "de" then german_agent user_input
          else english_agent user_input) with
   | RunResult.ok r => extract_content r
   | RunResult.err e => "❌ Error processing your request: " ++ e,
   if detected_lang = "de" then [AgentCall.german] else [AgentCall.english])

/-- A tuple `(user_input, response, lang_display)` appended to
`st.session_state.chat_history` (lines 241 and 246). -/
structure ConversationEntry where
  user_msg : String
  bot_msg : String
  lang : String
deriving DecidableEq

/-- The language badge shown with each entry (lines 216-220). -/
def lang_display (detected_lang : String) : String :=
  if detected_lang = "en" then "🇺🇸 English"
  else if detected_lang = "de" then "🇩🇪 German"
  else if detected_lang = "unknown" then "❓ Unknown"
  else "❓ " ++ detected_lang

/-- The fixed bilingual fallback message (line 244). -/
def warning_msg : String :=
  "I can currently assist in English and German. Please rephrase your question in one of these languages.\n\nIch kann derzeit auf Englisch und Deutsch helfen. Bitte formulieren Sie Ihre Frage in einer dieser Sprachen."

/-- One user interaction of `main` (lines 211-246), reduced to the entry it appends and the
agent calls it makes: detect the language, and either dispatch to an agent (labels `en`
and `de`) or record the fixed fallback message without any agent call. -/
def step_entry (english_agent german_agent : String → RunResult)
    (primary : String → Option String) (user_input : String) :
    ConversationEntry × List AgentCall :=
  if detect_language primary user_input = "en" ∨ detect_language primary user_input = "de" then
    (⟨user_input,
      (get_response_from_agent english_agent german_agent user_input
        (detect_language primary user_input)).1,
      lang_display (detect_language primary user_input)⟩,
     (get_response_from_agent english_agent german_agent user_input
        (detect_language primary user_input)).2)
  else
    (⟨user_input, warning_msg, lang_display (detect_language primary user_input)⟩, [])

/-- One user interaction of `main` acting on the chat history: the step's entry is
appended at the end (lines 241 and 246). -/
def process_input (english_agent german_agent : String → RunResult)
    (primary : String → Option String)
    (history : List ConversationEntry) (user_input : String) :
    List ConversationEntry × List AgentCall :=
  (history ++ [(step_entry english_agent german_agent primary user_input).1],
   (step_entry english_agent german_agent primary user_input).2)

/-- A whole session: every submitted input produces one entry and its agent calls. -/
def run_session (english_agent german_agent : String → RunResult)
    (primary : String → Option String) (inputs : List String) :
    List (ConversationEntry × List AgentCall) :=
  inputs.map (step_entry english_agent german_agent primary)

/-- `st.session_state.chat_history.append(entry)` (lines 241 and 246). -/
def log_append (log : List ConversationEntry) (e : ConversationEntry) :
    List ConversationEntry :=
  log ++ [e]

/-- `st.session_state.chat_history = []` (lines 170 and 199). -/
def log_clear : List ConversationEntry := []

/-- Reading the history back for display (line 202). -/
def log_all (log : List ConversationEntry) : List ConversationEntry := log

/-- Consistency of one history entry with the agent calls made while producing it:
either its badge is the English badge and exactly the English persona was invoked, or its
badge is the German badge and exactly the German persona was invoked, or its label is
Unsupported — its badge is the display of some code that is neither `en` nor `de` — no
persona was invoked, and its reply is the fixed fallback message. -/
def entry_ok (e : ConversationEntry) (calls : List AgentCall) : Prop :=
  (e.lang = "🇺🇸 English" ∧ calls = [AgentCall.english])
  ∨ (e.lang = "🇩🇪 German" ∧ calls = [AgentCall.german])
  ∨ (calls = [] ∧ e.bot_msg = warning_msg
      ∧ ∃ code, code ≠ "en" ∧ code ≠ "de" ∧ e.lang = lang_display code)

/-- A stub agent that always succeeds with a fixed reply, used to instantiate theorems. -/
def okAgent : String → RunResult :=
  fun _ => RunResult.ok ⟨some "hi", none, "RunResponse"⟩

/-- A stub agent that always raises with exception text `e`, used to instantiate theorems. -/
def failAgent (e : String) : String → RunResult :=
  fun _ => RunResult.err e

/-! ### Helper lemmas -/

/-- A text of stripped length at least 2 does not take the short-circuit branch. -/
theorem long_enough {text : String} (h : 2 ≤ (trimChars text.toList).length) :
    ¬ (text.toList.isEmpty ∨ (trimChars text.toList).length < 2) := by
  rintro (h1 | h1)
  · have he : text.toList = [] := List.isEmpty_iff.mp h1
    rw [he] at h
    simp [trimChars] at h
  · omega

/-- On long-enough text, a primary success is returned unchanged. -/
theorem detect_language_of_primary {primary : String → Option String} {text code : String}
    (h : 2 ≤ (trimChars text.toList).length) (hp : primary text = some code) :
    detect_language primary text = code := by
  unfold detect_language
  rw [if_neg (long_enough h), hp]

/-- On long-enough text, a primary exception yields the keyword fallback. -/
theorem detect_language_of_fail {primary : String → Option String} {text : String}
    (h : 2 ≤ (trimChars text.toList).length) (hp : primary text = none) :
    detect_language primary text = fallbackDetect text := by
  unfold detect_language
  rw [if_neg (long_enough h), hp]

/-- The keyword fallback can only answer one of the three labels. -/
theorem fallbackDetect_cases (text : String) :
    fallbackDetect text = "de" ∨ fallbackDetect text = "en" ∨ fallbackDetect text = "unknown" := by
  unfold fallbackDetect
  split
  · exact Or.inl rfl
  · split
    · exact Or.inr (Or.inl rfl)
    · exact Or.inr (Or.inr rfl)

/-- Folding `log_append` over a list of entries appends them in order. -/
theorem foldl_log_append (es acc : List ConversationEntry) :
    List.foldl log_append acc es = acc ++ es := by
  induction es generalizing acc with
  | nil => simp
  | cons e es ih =>
    rw [List.foldl_cons, ih, log_append]
    simp

/-- Every step produces an entry consistent with the persona it invoked. -/
theorem step_entry_ok (english_agent german_agent : String → RunResult)
    (primary : String → Option String) (input : String) :
    entry_ok (step_entry english_agent german_agent primary input).1
      (step_entry english_agent german_agent primary input).2 := by
  by_cases hen : detect_language primary input = "en"
  · left
    have hne : ("en" : String) ≠ "de" := by decide
    simp [step_entry, get_response_from_agent, lang_display, hen, hne]
  · by_cases hde : detect_language primary input = "de"
    · right; left
      simp [step_entry, get_response_from_agent, lang_display, hde, hen]
    · right; right
      have hcond : ¬ (detect_language primary input = "en"
          ∨ detect_language primary input = "de") := by
        rintro (hh | hh)
        · exact hen hh
        · exact hde hh
      unfold step_entry
      rw [if_neg hcond]
      exact ⟨rfl, rfl, detect_language primary input, hen, hde, rfl⟩

/-! ### Claim theorems -/

/-- Claim C1, as stated, is false on the code: with the primary detector succeeding and
returning the code "fr" (neither "en" nor "de") on a text of trimmed length at least 2,
`detect_language` returns "fr" itself; it does not fall through to the keyword fallback,
which would answer "en" on this input. -/
theorem primary_code_returned_cex :
    2 ≤ (trimChars "bonjour tout le monde".toList).length
    ∧ (fun (_ : String) => some "fr") "bonjour tout le monde" = some "fr"
    ∧ ("fr" : String) ≠ "en" ∧ ("fr" : String) ≠ "de"
    ∧ detect_language (fun _ => some "fr") "bonjour tout le monde" = "fr"
    ∧ fallbackDetect "bonjour tout le monde" = "en"
    ∧ detect_language (fun _ => some "fr") "bonjour tout le monde"
        ≠ fallbackDetect "bonjour tout le monde" := by
  decide

/-- Claim C1 (amended): for every text of trimmed length at least 2 for which the primary
detector succeeds, `detect_language` returns the primary detector's code unchanged — also
when that code is neither "en" nor "de".  The keyword-counting path is reached only on a
primary-detector exception. -/
theorem primary_success_returns_code (primary : String → Option String) (text code : String)
    (h : 2 ≤ (trimChars text.toList).length) (hp : primary text = some code) :
    detect_language primary text = code :=
  detect_language_of_primary h hp

/-- Witness for the amended claim C1 at a concrete input. -/
theorem primary_success_returns_code_witness :
    detect_language (fun _ => some "fr") "bonjour tout le monde" = "fr" :=
  primary_success_returns_code (fun _ => some "fr") "bonjour tout le monde" "fr"
    (by decide) rfl

/-- Claim C2: on text of trimmed length at least 2 whose primary detection raises,
`detect_language` decides by the keyword counts over the fixed indicator sets (14 German
words, 12 English words): German when the German count strictly exceeds the English count
and is positive, else English when the English count is positive, else Unsupported. -/
theorem fallback_keyword_decision (primary : String → Option String) (text : String)
    (h : 2 ≤ (trimChars text.toList).length) (hp : primary text = none) :
    german_indicators.length = 14
    ∧ english_indicators.length = 12
    ∧ ((german_count text > english_count text ∧ german_count text > 0) →
        detect_language primary text = "de")
    ∧ (¬ (german_count text > english_count text ∧ german_count text > 0) →
        english_count text > 0 → detect_language primary text = "en")
    ∧ (¬ (german_count text > english_count text ∧ german_count text > 0) →
        english_count text = 0 → detect_language primary text = "unknown") := by
  refine ⟨by decide, by decide, ?_, ?_, ?_⟩
  · intro hg
    rw [detect_language_of_fail h hp]
    unfold fallbackDetect
    rw [if_pos hg]
  · intro hg he
    rw [detect_language_of_fail h hp]
    unfold fallbackDetect
    rw [if_neg hg, if_pos he]
  · intro hg he
    rw [detect_language_of_fail h hp]
    unfold fallbackDetect
    rw [if_neg hg, if_neg (by omega)]

/-- Witness for claim C2: German indicators dominate on this input, so `de` is returned. -/
theorem fallback_keyword_decision_witness :
    detect_language (fun _ => none) "ich bin hier und du" = "de" :=
  (fallback_keyword_decision (fun _ => none) "ich bin hier und du"
    (by decide) rfl).2.2.1 (by decide)

/-- Claim C3: empty or near-empty text (stripped length below 2) is Unsupported, whatever
the primary detector would do — the detector is never consulted. -/
theorem short_text_unknown (primary : String → Option String) (text : String)
    (h : (trimChars text.toList).length < 2) :
    detect_language primary text = "unknown" := by
  unfold detect_language
  rw [if_pos (Or.inr h)]

/-- Witness for claim C3: a one-letter text is Unsupported even when the primary detector
would have answered `en`. -/
theorem short_text_unknown_witness :
    detect_language (fun _ => some "en") " x " = "unknown" :=
  short_text_unknown (fun _ => some "en") " x " (by decide)

/-- Claim C4: when the detected label is neither `en` nor `de`, the interaction makes no
agent call and appends exactly the fixed bilingual fallback message. -/
theorem unsupported_label_fallback (english_agent german_agent : String → RunResult)
    (primary : String → Option String) (history : List ConversationEntry) (input : String)
    (h1 : detect_language primary input ≠ "en") (h2 : detect_language primary input ≠ "de") :
    process_input english_agent german_agent primary history input
      = (history ++ [⟨input, warning_msg, lang_display (detect_language primary input)⟩],
         []) := by
  have hcond : ¬ (detect_language primary input = "en"
      ∨ detect_language primary input = "de") := by
    rintro (hh | hh)
    · exact h1 hh
    · exact h2 hh
  simp [process_input, step_entry, hcond]

/-- Witness for claim C4 at a concrete unsupported input. -/
theorem unsupported_label_fallback_witness :
    process_input okAgent okAgent (fun _ => some "fr") [] "bonjour tout le monde"
      = ([⟨"bonjour tout le monde", warning_msg,
           lang_display (detect_language (fun _ => some "fr") "bonjour tout le monde")⟩],
         []) :=
  unsupported_label_fallback okAgent okAgent (fun _ => some "fr") [] "bonjour tout le monde"
    (by decide) (by decide)

/-- Claim C5: when the agent call raises, `get_response_from_agent` does not propagate the
failure but returns an error string embedding the exception text, and the interaction
still appends a history entry carrying that string. -/
theorem agent_failure_error_string (primary : String → Option String)
    (history : List ConversationEntry) (input e : String)
    (h : detect_language primary input = "en" ∨ detect_language primary input = "de") :
    (get_response_from_agent (failAgent e) (failAgent e) input
        (detect_language primary input)).1
      = "❌ Error processing your request: " ++ e
    ∧ (process_input (failAgent e) (failAgent e) primary history input).1
      = history ++ [⟨input, "❌ Error processing your request: " ++ e,
                     lang_display (detect_language primary input)⟩] := by
  have hrep : ∀ lang, (get_response_from_agent (failAgent e) (failAgent e) input lang).1
      = "❌ Error processing your request: " ++ e := by
    intro lang
    by_cases hde : lang = "de" <;> simp [get_response_from_agent, failAgent, hde]
  refine ⟨hrep _, ?_⟩
  simp only [process_input, step_entry, if_pos h]
  rw [hrep]

/-- Witness for claim C5 at a concrete supported input with a failing agent. -/
theorem agent_failure_error_string_witness :
    (get_response_from_agent (failAgent "boom") (failAgent "boom") "hello there"
        (detect_language (fun _ => some "en") "hello there")).1
      = "❌ Error processing your request: " ++ "boom"
    ∧ (process_input (failAgent "boom") (failAgent "boom") (fun _ => some "en") []
        "hello there").1
      = [⟨"hello there", "❌ Error processing your request: " ++ "boom",
          lang_display (detect_language (fun _ => some "en") "hello there")⟩] :=
  agent_failure_error_string (fun _ => some "en") [] "hello there" "boom"
    (Or.inl (by decide))

/-- Claim C6: on a supported label, `get_response_from_agent` invokes exactly one agent
(the German agent for `de`, the English agent otherwise) and, on success, returns the
extracted content, where extraction prefers the direct `content` attribute, then the
content of the last message of a non-empty `messages` list, then `str(response)`. -/
theorem supported_label_dispatch (english_agent german_agent : String → RunResult)
    (input lang : String) (r : RunResponse)
    (_h : lang = "en" ∨ lang = "de") :
    (get_response_from_agent english_agent german_agent input lang).2
      = [if lang = "de" then AgentCall.german else AgentCall.english]
    ∧ ((if lang = "de" then german_agent input else english_agent input) = RunResult.ok r →
        (get_response_from_agent english_agent german_agent input lang).1
          = extract_content r)
    ∧ (∀ c, r.content = some c → extract_content r = c)
    ∧ (∀ msgs last c, r.content = none → r.messages = some msgs →
        msgs.getLast? = some last → last.content = some c → extract_content r = c)
    ∧ (r.content = none → r.messages = none → extract_content r = r.str_repr)
    ∧ (r.content = none → r.messages = some [] → extract_content r = r.str_repr) := by
  refine ⟨?_, ?_, ?_, ?_, ?_, ?_⟩
  · by_cases hde : lang = "de" <;> simp [get_response_from_agent, hde]
  · intro hr
    by_cases hde : lang = "de" <;>
      simp [get_response_from_agent, hde] at hr ⊢ <;> rw [hr]
  · intro c hc
    simp [extract_content, hc]
  · intro msgs last c h1 h2 h3 h4
    simp [extract_content, h1, h2, h3, h4]
  · intro h1 h2
    simp [extract_content, h1, h2]
  · intro h1 h2
    simp [extract_content, h1, h2]

/-- Witness for claim C6: the English label leads to exactly one English-agent call. -/
theorem supported_label_dispatch_witness :
    (get_response_from_agent okAgent okAgent "hello" "en").2 = [AgentCall.english] := by
  have h := (supported_label_dispatch okAgent okAgent "hello" "en"
      ⟨some "hi", none, "RunResponse"⟩ (Or.inl rfl)).1
  rw [if_neg (by decide)] at h
  exact h

/-- Claim C7: `detect_language` is total and every path resolves to a label: `en`, `de`,
`unknown`, or the code the primary detector successfully returned. -/
theorem detect_language_total (primary : String → Option String) (text : String) :
    detect_language primary text = "en"
    ∨ detect_language primary text = "de"
    ∨ detect_language primary text = "unknown"
    ∨ primary text = some (detect_language primary text) := by
  by_cases hshort : text.toList.isEmpty ∨ (trimChars text.toList).length < 2
  · have hu : detect_language primary text = "unknown" := by
      unfold detect_language
      rw [if_pos hshort]
    exact Or.inr (Or.inr (Or.inl hu))
  · have hlen : 2 ≤ (trimChars text.toList).length := by
      push_neg at hshort
      omega
    cases hp : primary text with
    | some code =>
      refine Or.inr (Or.inr (Or.inr ?_))
      rw [detect_language_of_primary hlen hp]
    | none =>
      rw [detect_language_of_fail hlen hp]
      rcases fallbackDetect_cases text with hf | hf | hf
      · exact Or.inr (Or.inl hf)
      · exact Or.inl hf
      · exact Or.inr (Or.inr (Or.inl hf))

/-- Claim C8: the history list preserves insertion order — reading back after an append
shows all prior entries in order with the new entry last, any sequence of appends starting
from an empty log reads back as exactly that sequence, and clearing leaves the empty
sequence. -/
theorem log_append_clear_spec :
    (∀ (log : List ConversationEntry) (e : ConversationEntry),
        log_all (log_append log e) = log_all log ++ [e])
    ∧ (∀ es : List ConversationEntry, log_all (List.foldl log_append log_clear es) = es)
    ∧ log_all log_clear = ([] : List ConversationEntry) := by
  refine ⟨fun log e => rfl, fun es => ?_, rfl⟩
  rw [foldl_log_append]
  simp [log_all, log_clear]

/-- Claim C9: every entry a session ever appends is consistent with the persona invoked to
produce it — English badge with exactly one English-agent call, German badge with exactly
one German-agent call, or an Unsupported label (the badge of some code that is neither
`en` nor `de`) with no agent call and the fixed fallback message as reply. -/
theorem entries_label_persona_consistent (english_agent german_agent : String → RunResult)
    (primary : String → Option String) (inputs : List String)
    (p : ConversationEntry × List AgentCall)
    (hp : p ∈ run_session english_agent german_agent primary inputs) :
    entry_ok p.1 p.2 := by
  simp only [run_session] at hp
  rcases List.mem_map.mp hp with ⟨input, hin, heq⟩
  rw [← heq]
  exact step_entry_ok english_agent german_agent primary input

/-- Witness for claim C9: a one-interaction session in German. -/
theorem entries_label_persona_consistent_witness :
    entry_ok ⟨"ich und du", "hi", "🇩🇪 German"⟩ [AgentCall.german] :=
  entries_label_persona_consistent okAgent okAgent (fun _ => none) ["ich und du"]
    (⟨"ich und du", "hi", "🇩🇪 German"⟩, [AgentCall.german]) (by decide)

/-- Claim C10: `get_response_from_agent` itself has no unsupported-label guard — every
label other than `de`, including `unknown`, invokes the English agent and returns its
extracted reply on success; the guard lives only in the caller, which makes no agent call
when the detected label is unsupported. -/
theorem non_de_label_english_agent (english_agent german_agent : String → RunResult)
    (primary : String → Option String) (history : List ConversationEntry)
    (input lang : String) (h : lang ≠ "de") :
    (get_response_from_agent english_agent german_agent input lang).2
      = [AgentCall.english]
    ∧ (∀ r, english_agent input = RunResult.ok r →
        (get_response_from_agent english_agent german_agent input lang).1
          = extract_content r)
    ∧ (detect_language primary input ≠ "en" → detect_language primary input ≠ "de" →
        (process_input english_agent german_agent primary history input).2 = []) := by
  refine ⟨?_, ?_, ?_⟩
  · simp [get_response_from_agent, h]
  · intro r hr
    simp [get_response_from_agent, h, hr]
  · intro h1 h2
    have hcond : ¬ (detect_language primary input = "en"
        ∨ detect_language primary input = "de") := by
      rintro (hh | hh)
      · exact h1 hh
      · exact h2 hh
    simp [process_input, step_entry, hcond]

/-- Witness for claim C10: the `unknown` label still reaches the English agent when
`get_response_from_agent` is called directly. -/
theorem non_de_label_english_agent_witness :
    (get_response_from_agent okAgent okAgent "hola amigo" "unknown").2
      = [AgentCall.english] :=
  (non_de_label_english_agent okAgent okAgent (fun _ => none) [] "hola amigo" "unknown"
    (by decide)).1
